import Mathlib

/-!
Verification of the deployment-manifest component of `curve-core`
(`scripts/deploy/deployment_file.py` and `scripts/deploy/governance/xgov.py`).

The YAML documents handled by the manifest store are embedded as the mutual
inductive family `Yaml`/`YList`/`YMap`; the Pydantic schema classes are
embedded as Lean structures with explicit `model_dump` / `model_validate`
functions; the file-backed operations of `YamlDeploymentFile` become pure
state transformers over `Option Yaml` (the parsed content of the manifest
file, `none` when the file does not exist).  Python exceptions are modelled
by the `PyErr` type.
-/

/-!
`Yaml` is a YAML-representable value, as produced by `yaml.safe_load` /
consumed by `yaml.safe_dump`: null, strings, integers, sequences and
mappings (association lists with string keys, insertion-ordered like a
Python `dict`).
-/
mutual
inductive Yaml where
  | null : Yaml
  | str : String → Yaml
  | int : Int → Yaml
  | list : YList → Yaml
  | map : YMap → Yaml
inductive YList where
  | nil : YList
  | cons : Yaml → YList → YList
inductive YMap where
  | nil : YMap
  | cons : String → Yaml → YMap → YMap
end

/-- Structural induction for `YMap` alone (the mutual recursor
specialised with trivial motives for `Yaml` and `YList`). -/
theorem YMap.ind {P : YMap → Prop} (nil : P .nil)
    (cons : ∀ (k : String) (v : Yaml) (rest : YMap), P rest → P (.cons k v rest)) :
    ∀ m : YMap, P m :=
  fun m =>
    @YMap.rec (fun _ => True) (fun _ => True) P
      trivial (fun _ => trivial) (fun _ => trivial) (fun _ _ => trivial) (fun _ _ => trivial)
      trivial (fun _ _ _ _ => trivial)
      nil (fun k v rest _ hr => cons k v rest hr) m

/-- Build a `YMap` from a list of key/value pairs. -/
def YMap.ofList : List (String × Yaml) → YMap
  | [] => .nil
  | (k, v) :: rest => .cons k v (YMap.ofList rest)

/-- The keys of a mapping, in order. -/
def YMap.keys : YMap → List String
  | .nil => []
  | .cons k _ rest => k :: YMap.keys rest

/-- Python `d[k]` / `k in d` on a mapping: the value bound to the first
occurrence of key `k`, if any. -/
def lookupKey : YMap → String → Option Yaml
  | .nil, _ => none
  | .cons k v rest, q => if k = q then some v else lookupKey rest q

/-- Python `d[k] = v` on a mapping: replace the value at the first
occurrence of `k`, or append a new binding. -/
def setKey : YMap → String → Yaml → YMap
  | .nil, q, v => .cons q v .nil
  | .cons k w rest, q, v => if k = q then .cons k v rest else .cons k w (setKey rest q v)

/-!
`deep_update` is `pydantic.v1.utils.deep_update`, specialised to a single
updating mapping, together with its per-key merge rule `deepUpdateVal`:
`updated[k] = deep_update(updated[k], v)` when both the existing value and
the update value are mappings, `updated[k] = v` otherwise.
-/
mutual
def deepUpdateVal : Option Yaml → Yaml → Yaml
  | some (Yaml.map sub), Yaml.map vsub => Yaml.map (deep_update sub vsub)
  | _, v => v
def deep_update : YMap → YMap → YMap
  | m, .nil => m
  | m, .cons k v rest => deep_update (setKey m k (deepUpdateVal (lookupKey m k) v)) rest
end

/-- The kinds of Python exception the embedded operations can raise. -/
inductive PyErr where
  | validationError
  | valueError
  | typeError
  | attributeError
  | notImplementedError
deriving DecidableEq

/-- Modelled from the spec: `settings.config.RollupType` is imported by
`deployment_file.py` and `xgov.py` but its definition is not part of the
sources under verification.  The spec's chain-specific branching recognizes
the rollup kinds `op_stack`, `polygon_cdk` and `arb_orbit` and speaks of
unrecognized rollup kinds besides these; `zksync` stands for such an
unrecognized enum member (the enum is a `StrEnum`, so each member's value
is its lower-case name). -/
inductive RollupType where
  | op_stack
  | polygon_cdk
  | arb_orbit
  | zksync
deriving DecidableEq

/-- The string value of a `RollupType` member (`StrEnum` with `auto()`). -/
def RollupType.value : RollupType → String
  | .op_stack => "op_stack"
  | .polygon_cdk => "polygon_cdk"
  | .arb_orbit => "arb_orbit"
  | .zksync => "zksync"

/-- Parse a string back into a `RollupType` member. -/
def RollupType.ofValue (s : String) : Option RollupType :=
  if s = "op_stack" then some .op_stack
  else if s = "polygon_cdk" then some .polygon_cdk
  else if s = "arb_orbit" then some .arb_orbit
  else if s = "zksync" then some .zksync
  else none

/-- `DeploymentType` (`StrEnum`): `normal` or `blueprint`. -/
inductive DeploymentType where
  | normal
  | blueprint
deriving DecidableEq

/-- The string value of a `DeploymentType` member. -/
def DeploymentType.value : DeploymentType → String
  | .normal => "normal"
  | .blueprint => "blueprint"

/-- Parse a string back into a `DeploymentType` member. -/
def DeploymentType.ofValue (s : String) : Option DeploymentType :=
  if s = "normal" then some .normal
  else if s = "blueprint" then some .blueprint
  else none

/-- `DaoSettings`: six optional address strings, all defaulting to `None`. -/
structure DaoSettings where
  crv : Option String
  crvusd : Option String
  emergency_admin : Option String
  ownership_admin : Option String
  parameter_admin : Option String
  vault : Option String
deriving DecidableEq

/-- `ChainParameters` (with `use_enum_values=True`, so `rollup_type` is
serialized as its string value). -/
structure ChainParameters where
  network_name : String
  chain_id : Int
  layer : Int
  rollup_type : RollupType
  dao : Option DaoSettings
  explorer_base_url : String
  native_currency_coingecko_id : String
  native_currency_symbol : String
  platform_coingecko_id : String
  public_rpc_url : String
  wrapped_native_token : String
deriving DecidableEq

/-- `CompilerSettings`: note `evm_version` is a required but nullable
field (`str | None` with no default). -/
structure CompilerSettings where
  compiler_version : String
  evm_version : Option String
  optimisation_level : String
deriving DecidableEq

/-- `Contract` (with `use_enum_values=True` for `deployment_type`).
`constructor_args_encoded` is required but nullable. -/
structure Contract where
  address : String
  compiler_settings : CompilerSettings
  constructor_args_encoded : Option String
  contract_github_url : String
  contract_path : String
  contract_version : String
  deployment_timestamp : Int
  deployment_type : DeploymentType
deriving DecidableEq

/-- `SingleAmmDeployment`. -/
structure SingleAmmDeployment where
  factory : Option Contract
  implementation : Option Contract
  math : Option Contract
  views : Option Contract
deriving DecidableEq

/-- `StableswapSingleAmmDeployment`, flattened: it extends
`SingleAmmDeployment` with `meta_implementation` (parent fields first, as
in Pydantic's field ordering). -/
structure StableswapSingleAmmDeployment where
  factory : Option Contract
  implementation : Option Contract
  math : Option Contract
  views : Option Contract
  meta_implementation : Option Contract
deriving DecidableEq

/-- `AmmDeployment`. -/
structure AmmDeployment where
  stableswap : Option StableswapSingleAmmDeployment
  tricryptoswap : Option SingleAmmDeployment
  twocryptoswap : Option SingleAmmDeployment
deriving DecidableEq

/-- `GaugeFactoryDeployment`. -/
structure GaugeFactoryDeployment where
  factory : Option Contract
  implementation : Option Contract
deriving DecidableEq

/-- `GaugeDeployment`: `child_gauge` is a required field. -/
structure GaugeDeployment where
  child_gauge : GaugeFactoryDeployment
deriving DecidableEq

/-- `GovernanceDeployment`: `relayer` is an optional `dict[str, Contract]`,
embedded as an ordered association list. -/
structure GovernanceDeployment where
  agent : Option Contract
  relayer : Option (List (String × Contract))
  vault : Option Contract
deriving DecidableEq

/-- `HelpersDeployment`. -/
structure HelpersDeployment where
  deposit_and_stake_zap : Option Contract
  rate_provider : Option Contract
  router : Option Contract
  stable_swap_meta_zap : Option Contract
deriving DecidableEq

/-- `MetaregistryHandlers`. -/
structure MetaregistryHandlers where
  stableswap : Option Contract
  tricryptoswap : Option Contract
  twocryptoswap : Option Contract
deriving DecidableEq

/-- `MetaregistyContract` (name as in the source), flattened: it extends
`Contract` with `registry_handlers`. -/
structure MetaregistyContract where
  address : String
  compiler_settings : CompilerSettings
  constructor_args_encoded : Option String
  contract_github_url : String
  contract_path : String
  contract_version : String
  deployment_timestamp : Int
  deployment_type : DeploymentType
  registry_handlers : Option MetaregistryHandlers
deriving DecidableEq

/-- `RegistriesDeployment`. -/
structure RegistriesDeployment where
  address_provider : Option Contract
  metaregistry : Option MetaregistyContract
deriving DecidableEq

/-- `ContractsDeployment`. -/
structure ContractsDeployment where
  amm : Option AmmDeployment
  gauge : Option GaugeDeployment
  governance : Option GovernanceDeployment
  helpers : Option HelpersDeployment
  registries : Option RegistriesDeployment
deriving DecidableEq

/-- `DeploymentConfig`: the top-level manifest document. -/
structure DeploymentConfig where
  config : ChainParameters
  contracts : Option ContractsDeployment
deriving DecidableEq

/-! ### Serialization (`model_dump`)

Each model `X` gets an `X.model_dump_map : X → YMap` (the dumped mapping,
fields in Pydantic declaration order) and `X.model_dump : X → Yaml` wrapping
it in a `Yaml.map`.  `model_dump` includes `None`-valued fields as YAML
nulls, as Pydantic's default `model_dump()` does. -/

/-- Dump an optional value, `None` becoming YAML null. -/
def dumpOpt {α : Type} (f : α → Yaml) : Option α → Yaml
  | none => .null
  | some x => f x

/-- Dump an optional string. -/
def dumpOptStr : Option String → Yaml := dumpOpt Yaml.str

def DaoSettings.model_dump_map (d : DaoSettings) : YMap :=
  .ofList
    [("crv", dumpOptStr d.crv),
     ("crvusd", dumpOptStr d.crvusd),
     ("emergency_admin", dumpOptStr d.emergency_admin),
     ("ownership_admin", dumpOptStr d.ownership_admin),
     ("parameter_admin", dumpOptStr d.parameter_admin),
     ("vault", dumpOptStr d.vault)]

def DaoSettings.model_dump (d : DaoSettings) : Yaml :=
  .map d.model_dump_map

def ChainParameters.model_dump_map (c : ChainParameters) : YMap :=
  .ofList
    [("network_name", .str c.network_name),
     ("chain_id", .int c.chain_id),
     ("layer", .int c.layer),
     ("rollup_type", .str c.rollup_type.value),
     ("dao", dumpOpt DaoSettings.model_dump c.dao),
     ("explorer_base_url", .str c.explorer_base_url),
     ("native_currency_coingecko_id", .str c.native_currency_coingecko_id),
     ("native_currency_symbol", .str c.native_currency_symbol),
     ("platform_coingecko_id", .str c.platform_coingecko_id),
     ("public_rpc_url", .str c.public_rpc_url),
     ("wrapped_native_token", .str c.wrapped_native_token)]

def ChainParameters.model_dump (c : ChainParameters) : Yaml :=
  .map c.model_dump_map

def CompilerSettings.model_dump_map (c : CompilerSettings) : YMap :=
  .ofList
    [("compiler_version", .str c.compiler_version),
     ("evm_version", dumpOptStr c.evm_version),
     ("optimisation_level", .str c.optimisation_level)]

def CompilerSettings.model_dump (c : CompilerSettings) : Yaml :=
  .map c.model_dump_map

def Contract.model_dump_map (c : Contract) : YMap :=
  .ofList
    [("address", .str c.address),
     ("compiler_settings", c.compiler_settings.model_dump),
     ("constructor_args_encoded", dumpOptStr c.constructor_args_encoded),
     ("contract_github_url", .str c.contract_github_url),
     ("contract_path", .str c.contract_path),
     ("contract_version", .str c.contract_version),
     ("deployment_timestamp", .int c.deployment_timestamp),
     ("deployment_type", .str c.deployment_type.value)]

def Contract.model_dump (c : Contract) : Yaml :=
  .map c.model_dump_map

def SingleAmmDeployment.model_dump_map (s : SingleAmmDeployment) : YMap :=
  .ofList
    [("factory", dumpOpt Contract.model_dump s.factory),
     ("implementation", dumpOpt Contract.model_dump s.implementation),
     ("math", dumpOpt Contract.model_dump s.math),
     ("views", dumpOpt Contract.model_dump s.views)]

def SingleAmmDeployment.model_dump (s : SingleAmmDeployment) : Yaml :=
  .map s.model_dump_map

def StableswapSingleAmmDeployment.model_dump_map (s : StableswapSingleAmmDeployment) : YMap :=
  .ofList
    [("factory", dumpOpt Contract.model_dump s.factory),
     ("implementation", dumpOpt Contract.model_dump s.implementation),
     ("math", dumpOpt Contract.model_dump s.math),
     ("views", dumpOpt Contract.model_dump s.views),
     ("meta_implementation", dumpOpt Contract.model_dump s.meta_implementation)]

def StableswapSingleAmmDeployment.model_dump (s : StableswapSingleAmmDeployment) : Yaml :=
  .map s.model_dump_map

def AmmDeployment.model_dump_map (a : AmmDeployment) : YMap :=
  .ofList
    [("stableswap", dumpOpt StableswapSingleAmmDeployment.model_dump a.stableswap),
     ("tricryptoswap", dumpOpt SingleAmmDeployment.model_dump a.tricryptoswap),
     ("twocryptoswap", dumpOpt SingleAmmDeployment.model_dump a.twocryptoswap)]

def AmmDeployment.model_dump (a : AmmDeployment) : Yaml :=
  .map a.model_dump_map

def GaugeFactoryDeployment.model_dump_map (g : GaugeFactoryDeployment) : YMap :=
  .ofList
    [("factory", dumpOpt Contract.model_dump g.factory),
     ("implementation", dumpOpt Contract.model_dump g.implementation)]

def GaugeFactoryDeployment.model_dump (g : GaugeFactoryDeployment) : Yaml :=
  .map g.model_dump_map

def GaugeDeployment.model_dump_map (g : GaugeDeployment) : YMap :=
  .ofList [("child_gauge", g.child_gauge.model_dump)]

def GaugeDeployment.model_dump (g : GaugeDeployment) : Yaml :=
  .map g.model_dump_map

/-- Dump a `dict[str, Contract]` field. -/
def dumpContractDict : List (String × Contract) → YMap
  | [] => .nil
  | (k, c) :: rest => .cons k c.model_dump (dumpContractDict rest)

def GovernanceDeployment.model_dump_map (g : GovernanceDeployment) : YMap :=
  .ofList
    [("agent", dumpOpt Contract.model_dump g.agent),
     ("relayer", dumpOpt (fun m => Yaml.map (dumpContractDict m)) g.relayer),
     ("vault", dumpOpt Contract.model_dump g.vault)]

def GovernanceDeployment.model_dump (g : GovernanceDeployment) : Yaml :=
  .map g.model_dump_map

def HelpersDeployment.model_dump_map (h : HelpersDeployment) : YMap :=
  .ofList
    [("deposit_and_stake_zap", dumpOpt Contract.model_dump h.deposit_and_stake_zap),
     ("rate_provider", dumpOpt Contract.model_dump h.rate_provider),
     ("router", dumpOpt Contract.model_dump h.router),
     ("stable_swap_meta_zap", dumpOpt Contract.model_dump h.stable_swap_meta_zap)]

def HelpersDeployment.model_dump (h : HelpersDeployment) : Yaml :=
  .map h.model_dump_map

def MetaregistryHandlers.model_dump_map (h : MetaregistryHandlers) : YMap :=
  .ofList
    [("stableswap", dumpOpt Contract.model_dump h.stableswap),
     ("tricryptoswap", dumpOpt Contract.model_dump h.tricryptoswap),
     ("twocryptoswap", dumpOpt Contract.model_dump h.twocryptoswap)]

def MetaregistryHandlers.model_dump (h : MetaregistryHandlers) : Yaml :=
  .map h.model_dump_map

def MetaregistyContract.model_dump_map (c : MetaregistyContract) : YMap :=
  .ofList
    [("address", .str c.address),
     ("compiler_settings", c.compiler_settings.model_dump),
     ("constructor_args_encoded", dumpOptStr c.constructor_args_encoded),
     ("contract_github_url", .str c.contract_github_url),
     ("contract_path", .str c.contract_path),
     ("contract_version", .str c.contract_version),
     ("deployment_timestamp", .int c.deployment_timestamp),
     ("deployment_type", .str c.deployment_type.value),
     ("registry_handlers", dumpOpt MetaregistryHandlers.model_dump c.registry_handlers)]

def MetaregistyContract.model_dump (c : MetaregistyContract) : Yaml :=
  .map c.model_dump_map

def RegistriesDeployment.model_dump_map (r : RegistriesDeployment) : YMap :=
  .ofList
    [("address_provider", dumpOpt Contract.model_dump r.address_provider),
     ("metaregistry", dumpOpt MetaregistyContract.model_dump r.metaregistry)]

def RegistriesDeployment.model_dump (r : RegistriesDeployment) : Yaml :=
  .map r.model_dump_map

def ContractsDeployment.model_dump_map (c : ContractsDeployment) : YMap :=
  .ofList
    [("amm", dumpOpt AmmDeployment.model_dump c.amm),
     ("gauge", dumpOpt GaugeDeployment.model_dump c.gauge),
     ("governance", dumpOpt GovernanceDeployment.model_dump c.governance),
     ("helpers", dumpOpt HelpersDeployment.model_dump c.helpers),
     ("registries", dumpOpt RegistriesDeployment.model_dump c.registries)]

def ContractsDeployment.model_dump (c : ContractsDeployment) : Yaml :=
  .map c.model_dump_map

def DeploymentConfig.model_dump_map (d : DeploymentConfig) : YMap :=
  .ofList
    [("config", d.config.model_dump),
     ("contracts", dumpOpt ContractsDeployment.model_dump d.contracts)]

def DeploymentConfig.model_dump (d : DeploymentConfig) : Yaml :=
  .map d.model_dump_map

/-! ### Validation (`model_validate`) -/

/-- Validate a plain string field. -/
def vStr : Yaml → Option String
  | .str s => some s
  | _ => none

/-- Validate a plain integer field. -/
def vInt : Yaml → Option Int
  | .int n => some n
  | _ => none

/-- Validate a `RollupType` field (accepts the enum's string values). -/
def vRollupType (y : Yaml) : Option RollupType :=
  (vStr y).bind RollupType.ofValue

/-- Validate a `DeploymentType` field. -/
def vDeploymentType (y : Yaml) : Option DeploymentType :=
  (vStr y).bind DeploymentType.ofValue

/-- Validate a nullable field (`X | None`): null parses to `None`,
anything else must validate as `X`. -/
def vOpt {α : Type} (f : Yaml → Option α) : Yaml → Option (Option α)
  | .null => some none
  | v => (f v).map some

/-- A required field: fails when the key is missing. -/
def reqF {α : Type} (m : YMap) (k : String) (f : Yaml → Option α) : Option α :=
  (lookupKey m k).bind f

/-- An optional field with default `None`: a missing key parses to `None`. -/
def optF {α : Type} (m : YMap) (k : String) (f : Yaml → Option α) : Option (Option α) :=
  match lookupKey m k with
  | none => some none
  | some v => vOpt f v


def DaoSettings.model_validate : Yaml → Option DaoSettings
  | .map m => do
      let crv ← optF m "crv" vStr
      let crvusd ← optF m "crvusd" vStr
      let emergency_admin ← optF m "emergency_admin" vStr
      let ownership_admin ← optF m "ownership_admin" vStr
      let parameter_admin ← optF m "parameter_admin" vStr
      let vault ← optF m "vault" vStr
      some ⟨crv, crvusd, emergency_admin, ownership_admin, parameter_admin, vault⟩
  | _ => none

def ChainParameters.model_validate : Yaml → Option ChainParameters
  | .map m => do
      let network_name ← reqF m "network_name" vStr
      let chain_id ← reqF m "chain_id" vInt
      let layer ← reqF m "layer" vInt
      let rollup_type ← reqF m "rollup_type" vRollupType
      let dao ← optF m "dao" DaoSettings.model_validate
      let explorer_base_url ← reqF m "explorer_base_url" vStr
      let native_currency_coingecko_id ← reqF m "native_currency_coingecko_id" vStr
      let native_currency_symbol ← reqF m "native_currency_symbol" vStr
      let platform_coingecko_id ← reqF m "platform_coingecko_id" vStr
      let public_rpc_url ← reqF m "public_rpc_url" vStr
      let wrapped_native_token ← reqF m "wrapped_native_token" vStr
      some ⟨network_name, chain_id, layer, rollup_type, dao, explorer_base_url,
            native_currency_coingecko_id, native_currency_symbol,
            platform_coingecko_id, public_rpc_url, wrapped_native_token⟩
  | _ => none

def CompilerSettings.model_validate : Yaml → Option CompilerSettings
  | .map m => do
      let compiler_version ← reqF m "compiler_version" vStr
      let evm_version ← reqF m "evm_version" (vOpt vStr)
      let optimisation_level ← reqF m "optimisation_level" vStr
      some ⟨compiler_version, evm_version, optimisation_level⟩
  | _ => none

def Contract.model_validate : Yaml → Option Contract
  | .map m => do
      let address ← reqF m "address" vStr
      let compiler_settings ← reqF m "compiler_settings" CompilerSettings.model_validate
      let constructor_args_encoded ← reqF m "constructor_args_encoded" (vOpt vStr)
      let contract_github_url ← reqF m "contract_github_url" vStr
      let contract_path ← reqF m "contract_path" vStr
      let contract_version ← reqF m "contract_version" vStr
      let deployment_timestamp ← reqF m "deployment_timestamp" vInt
      let deployment_type ← reqF m "deployment_type" vDeploymentType
      some ⟨address, compiler_settings, constructor_args_encoded, contract_github_url,
            contract_path, contract_version, deployment_timestamp, deployment_type⟩
  | _ => none

/-- Validate the entries of a `dict[str, Contract]` field (each value must
validate as a `Contract`). -/
def vContractDictAux : YMap → Option (List (String × Contract))
  | .nil => some []
  | .cons k v rest => do
      let c ← Contract.model_validate v
      let cs ← vContractDictAux rest
      some ((k, c) :: cs)

/-- Validate a `dict[str, Contract]` field. -/
def vContractDict : Yaml → Option (List (String × Contract))
  | .map m => vContractDictAux m
  | _ => none

def SingleAmmDeployment.model_validate : Yaml → Option SingleAmmDeployment
  | .map m => do
      let factory ← optF m "factory" Contract.model_validate
      let implementation ← optF m "implementation" Contract.model_validate
      let math ← optF m "math" Contract.model_validate
      let views ← optF m "views" Contract.model_validate
      some ⟨factory, implementation, math, views⟩
  | _ => none

def StableswapSingleAmmDeployment.model_validate : Yaml → Option StableswapSingleAmmDeployment
  | .map m => do
      let factory ← optF m "factory" Contract.model_validate
      let implementation ← optF m "implementation" Contract.model_validate
      let math ← optF m "math" Contract.model_validate
      let views ← optF m "views" Contract.model_validate
      let meta_implementation ← optF m "meta_implementation" Contract.model_validate
      some ⟨factory, implementation, math, views, meta_implementation⟩
  | _ => none

def AmmDeployment.model_validate : Yaml → Option AmmDeployment
  | .map m => do
      let stableswap ← optF m "stableswap" StableswapSingleAmmDeployment.model_validate
      let tricryptoswap ← optF m "tricryptoswap" SingleAmmDeployment.model_validate
      let twocryptoswap ← optF m "twocryptoswap" SingleAmmDeployment.model_validate
      some ⟨stableswap, tricryptoswap, twocryptoswap⟩
  | _ => none

def GaugeFactoryDeployment.model_validate : Yaml → Option GaugeFactoryDeployment
  | .map m => do
      let factory ← optF m "factory" Contract.model_validate
      let implementation ← optF m "implementation" Contract.model_validate
      some ⟨factory, implementation⟩
  | _ => none

def GaugeDeployment.model_validate : Yaml → Option GaugeDeployment
  | .map m => do
      let child_gauge ← reqF m "child_gauge" GaugeFactoryDeployment.model_validate
      some ⟨child_gauge⟩
  | _ => none

def GovernanceDeployment.model_validate : Yaml → Option GovernanceDeployment
  | .map m => do
      let agent ← optF m "agent" Contract.model_validate
      let relayer ← optF m "relayer" vContractDict
      let vault ← optF m "vault" Contract.model_validate
      some ⟨agent, relayer, vault⟩
  | _ => none

def HelpersDeployment.model_validate : Yaml → Option HelpersDeployment
  | .map m => do
      let deposit_and_stake_zap ← optF m "deposit_and_stake_zap" Contract.model_validate
      let rate_provider ← optF m "rate_provider" Contract.model_validate
      let router ← optF m "router" Contract.model_validate
      let stable_swap_meta_zap ← optF m "stable_swap_meta_zap" Contract.model_validate
      some ⟨deposit_and_stake_zap, rate_provider, router, stable_swap_meta_zap⟩
  | _ => none

def MetaregistryHandlers.model_validate : Yaml → Option MetaregistryHandlers
  | .map m => do
      let stableswap ← optF m "stableswap" Contract.model_validate
      let tricryptoswap ← optF m "tricryptoswap" Contract.model_validate
      let twocryptoswap ← optF m "twocryptoswap" Contract.model_validate
      some ⟨stableswap, tricryptoswap, twocryptoswap⟩
  | _ => none

def MetaregistyContract.model_validate : Yaml → Option MetaregistyContract
  | .map m => do
      let address ← reqF m "address" vStr
      let compiler_settings ← reqF m "compiler_settings" CompilerSettings.model_validate
      let constructor_args_encoded ← reqF m "constructor_args_encoded" (vOpt vStr)
      let contract_github_url ← reqF m "contract_github_url" vStr
      let contract_path ← reqF m "contract_path" vStr
      let contract_version ← reqF m "contract_version" vStr
      let deployment_timestamp ← reqF m "deployment_timestamp" vInt
      let deployment_type ← reqF m "deployment_type" vDeploymentType
      let registry_handlers ← optF m "registry_handlers" MetaregistryHandlers.model_validate
      some ⟨address, compiler_settings, constructor_args_encoded, contract_github_url,
            contract_path, contract_version, deployment_timestamp, deployment_type,
            registry_handlers⟩
  | _ => none

def RegistriesDeployment.model_validate : Yaml → Option RegistriesDeployment
  | .map m => do
      let address_provider ← optF m "address_provider" Contract.model_validate
      let metaregistry ← optF m "metaregistry" MetaregistyContract.model_validate
      some ⟨address_provider, metaregistry⟩
  | _ => none

def ContractsDeployment.model_validate : Yaml → Option ContractsDeployment
  | .map m => do
      let amm ← optF m "amm" AmmDeployment.model_validate
      let gauge ← optF m "gauge" GaugeDeployment.model_validate
      let governance ← optF m "governance" GovernanceDeployment.model_validate
      let helpers ← optF m "helpers" HelpersDeployment.model_validate
      let registries ← optF m "registries" RegistriesDeployment.model_validate
      some ⟨amm, gauge, governance, helpers, registries⟩
  | _ => none

def DeploymentConfig.model_validate : Yaml → Option DeploymentConfig
  | .map m => do
      let config ← reqF m "config" ChainParameters.model_validate
      let contracts ← optF m "contracts" ContractsDeployment.model_validate
      some ⟨config, contracts⟩
  | _ => none

/-! ### Round-trip lemmas: `model_validate` inverts `model_dump` -/

theorem rollupType_ofValue_value (r : RollupType) : RollupType.ofValue r.value = some r := by
  cases r <;> rfl

theorem deploymentType_ofValue_value (d : DeploymentType) :
    DeploymentType.ofValue d.value = some d := by
  cases d <;> rfl

@[simp] theorem vOpt_vStr_dumpOptStr (o : Option String) : vOpt vStr (dumpOptStr o) = some o := by
  cases o <;> rfl

@[simp] theorem vRollupType_value (r : RollupType) :
    vRollupType (Yaml.str r.value) = some r := by
  cases r <;> rfl

@[simp] theorem vDeploymentType_value (d : DeploymentType) :
    vDeploymentType (Yaml.str d.value) = some d := by
  cases d <;> rfl

@[simp] theorem dao_validate_dump (d : DaoSettings) :
    DaoSettings.model_validate (Yaml.map d.model_dump_map) = some d := by
  obtain ⟨a, b, c, e, f, g⟩ := d
  cases a <;> cases b <;> cases c <;> cases e <;> cases f <;> cases g <;> rfl

@[simp] theorem vOpt_dao_dump (o : Option DaoSettings) :
    vOpt DaoSettings.model_validate (dumpOpt DaoSettings.model_dump o) = some o := by
  cases o with
  | none => rfl
  | some d => simp [dumpOpt, DaoSettings.model_dump, vOpt]

@[simp] theorem chain_validate_dump (c : ChainParameters) :
    ChainParameters.model_validate (Yaml.map c.model_dump_map) = some c := by
  obtain ⟨nn, ci, l, rt, dao, e1, e2, e3, e4, e5, e6⟩ := c
  simp [ChainParameters.model_validate, ChainParameters.model_dump_map, YMap.ofList,
    reqF, optF, lookupKey, vStr, vInt, DaoSettings.model_dump]

@[simp] theorem compiler_validate_dump (c : CompilerSettings) :
    CompilerSettings.model_validate (Yaml.map c.model_dump_map) = some c := by
  obtain ⟨a, b, d⟩ := c
  cases b <;> rfl

@[simp] theorem compiler_validate_dump_yaml (c : CompilerSettings) :
    CompilerSettings.model_validate c.model_dump = some c := by
  simp [CompilerSettings.model_dump]

@[simp] theorem contract_validate_dump (c : Contract) :
    Contract.model_validate (Yaml.map c.model_dump_map) = some c := by
  obtain ⟨a, cs, cae, gu, cp, cv, ts, dt⟩ := c
  simp [Contract.model_validate, Contract.model_dump_map, YMap.ofList,
    reqF, lookupKey, vStr, vInt, CompilerSettings.model_dump]

@[simp] theorem vOpt_contract_dump (o : Option Contract) :
    vOpt Contract.model_validate (dumpOpt Contract.model_dump o) = some o := by
  cases o with
  | none => rfl
  | some c => simp [dumpOpt, Contract.model_dump, vOpt]

@[simp] theorem single_amm_validate_dump (s : SingleAmmDeployment) :
    SingleAmmDeployment.model_validate (Yaml.map s.model_dump_map) = some s := by
  obtain ⟨a, b, c, d⟩ := s
  simp [SingleAmmDeployment.model_validate, SingleAmmDeployment.model_dump_map, YMap.ofList,
    optF, lookupKey]

@[simp] theorem vOpt_single_amm_dump (o : Option SingleAmmDeployment) :
    vOpt SingleAmmDeployment.model_validate (dumpOpt SingleAmmDeployment.model_dump o) =
      some o := by
  cases o with
  | none => rfl
  | some s => simp [dumpOpt, SingleAmmDeployment.model_dump, vOpt]

@[simp] theorem stableswap_amm_validate_dump (s : StableswapSingleAmmDeployment) :
    StableswapSingleAmmDeployment.model_validate (Yaml.map s.model_dump_map) = some s := by
  obtain ⟨a, b, c, d, e⟩ := s
  simp [StableswapSingleAmmDeployment.model_validate,
    StableswapSingleAmmDeployment.model_dump_map, YMap.ofList, optF, lookupKey]

@[simp] theorem vOpt_stableswap_amm_dump (o : Option StableswapSingleAmmDeployment) :
    vOpt StableswapSingleAmmDeployment.model_validate
      (dumpOpt StableswapSingleAmmDeployment.model_dump o) = some o := by
  cases o with
  | none => rfl
  | some s => simp [dumpOpt, StableswapSingleAmmDeployment.model_dump, vOpt]

@[simp] theorem amm_validate_dump (a : AmmDeployment) :
    AmmDeployment.model_validate (Yaml.map a.model_dump_map) = some a := by
  obtain ⟨x, y, z⟩ := a
  simp [AmmDeployment.model_validate, AmmDeployment.model_dump_map, YMap.ofList,
    optF, lookupKey]

@[simp] theorem vOpt_amm_dump (o : Option AmmDeployment) :
    vOpt AmmDeployment.model_validate (dumpOpt AmmDeployment.model_dump o) = some o := by
  cases o with
  | none => rfl
  | some a => simp [dumpOpt, AmmDeployment.model_dump, vOpt]

@[simp] theorem gauge_factory_validate_dump (g : GaugeFactoryDeployment) :
    GaugeFactoryDeployment.model_validate (Yaml.map g.model_dump_map) = some g := by
  obtain ⟨a, b⟩ := g
  simp [GaugeFactoryDeployment.model_validate, GaugeFactoryDeployment.model_dump_map,
    YMap.ofList, optF, lookupKey]

@[simp] theorem gauge_validate_dump (g : GaugeDeployment) :
    GaugeDeployment.model_validate (Yaml.map g.model_dump_map) = some g := by
  obtain ⟨cg⟩ := g
  simp [GaugeDeployment.model_validate, GaugeDeployment.model_dump_map, YMap.ofList,
    reqF, lookupKey, GaugeFactoryDeployment.model_dump]

@[simp] theorem vOpt_gauge_dump (o : Option GaugeDeployment) :
    vOpt GaugeDeployment.model_validate (dumpOpt GaugeDeployment.model_dump o) = some o := by
  cases o with
  | none => rfl
  | some g => simp [dumpOpt, GaugeDeployment.model_dump, vOpt]

@[simp] theorem vContractDictAux_dump (l : List (String × Contract)) :
    vContractDictAux (dumpContractDict l) = some l := by
  induction l with
  | nil => rfl
  | cons hd tl ih =>
      obtain ⟨k, c⟩ := hd
      simp [dumpContractDict, vContractDictAux, ih, Contract.model_dump]

@[simp] theorem vOpt_relayer_dump (o : Option (List (String × Contract))) :
    vOpt vContractDict (dumpOpt (fun m => Yaml.map (dumpContractDict m)) o) = some o := by
  cases o with
  | none => rfl
  | some l => simp [dumpOpt, vOpt, vContractDict]

@[simp] theorem governance_validate_dump (g : GovernanceDeployment) :
    GovernanceDeployment.model_validate (Yaml.map g.model_dump_map) = some g := by
  obtain ⟨a, r, v⟩ := g
  simp [GovernanceDeployment.model_validate, GovernanceDeployment.model_dump_map,
    YMap.ofList, optF, lookupKey]

@[simp] theorem vOpt_governance_dump (o : Option GovernanceDeployment) :
    vOpt GovernanceDeployment.model_validate (dumpOpt GovernanceDeployment.model_dump o) =
      some o := by
  cases o with
  | none => rfl
  | some g => simp [dumpOpt, GovernanceDeployment.model_dump, vOpt]

@[simp] theorem helpers_validate_dump (h : HelpersDeployment) :
    HelpersDeployment.model_validate (Yaml.map h.model_dump_map) = some h := by
  obtain ⟨a, b, c, d⟩ := h
  simp [HelpersDeployment.model_validate, HelpersDeployment.model_dump_map, YMap.ofList,
    optF, lookupKey]

@[simp] theorem vOpt_helpers_dump (o : Option HelpersDeployment) :
    vOpt HelpersDeployment.model_validate (dumpOpt HelpersDeployment.model_dump o) =
      some o := by
  cases o with
  | none => rfl
  | some h => simp [dumpOpt, HelpersDeployment.model_dump, vOpt]

@[simp] theorem meta_handlers_validate_dump (h : MetaregistryHandlers) :
    MetaregistryHandlers.model_validate (Yaml.map h.model_dump_map) = some h := by
  obtain ⟨a, b, c⟩ := h
  simp [MetaregistryHandlers.model_validate, MetaregistryHandlers.model_dump_map,
    YMap.ofList, optF, lookupKey]

@[simp] theorem vOpt_meta_handlers_dump (o : Option MetaregistryHandlers) :
    vOpt MetaregistryHandlers.model_validate (dumpOpt MetaregistryHandlers.model_dump o) =
      some o := by
  cases o with
  | none => rfl
  | some h => simp [dumpOpt, MetaregistryHandlers.model_dump, vOpt]

@[simp] theorem meta_contract_validate_dump (c : MetaregistyContract) :
    MetaregistyContract.model_validate (Yaml.map c.model_dump_map) = some c := by
  obtain ⟨a, cs, cae, gu, cp, cv, ts, dt, rh⟩ := c
  simp [MetaregistyContract.model_validate, MetaregistyContract.model_dump_map, YMap.ofList,
    reqF, optF, lookupKey, vStr, vInt, CompilerSettings.model_dump]

@[simp] theorem vOpt_meta_contract_dump (o : Option MetaregistyContract) :
    vOpt MetaregistyContract.model_validate (dumpOpt MetaregistyContract.model_dump o) =
      some o := by
  cases o with
  | none => rfl
  | some c => simp [dumpOpt, MetaregistyContract.model_dump, vOpt]

@[simp] theorem registries_validate_dump (r : RegistriesDeployment) :
    RegistriesDeployment.model_validate (Yaml.map r.model_dump_map) = some r := by
  obtain ⟨a, m⟩ := r
  simp [RegistriesDeployment.model_validate, RegistriesDeployment.model_dump_map,
    YMap.ofList, optF, lookupKey]

@[simp] theorem vOpt_registries_dump (o : Option RegistriesDeployment) :
    vOpt RegistriesDeployment.model_validate (dumpOpt RegistriesDeployment.model_dump o) =
      some o := by
  cases o with
  | none => rfl
  | some r => simp [dumpOpt, RegistriesDeployment.model_dump, vOpt]

@[simp] theorem contracts_validate_dump (c : ContractsDeployment) :
    ContractsDeployment.model_validate (Yaml.map c.model_dump_map) = some c := by
  obtain ⟨a, g, gov, h, r⟩ := c
  simp [ContractsDeployment.model_validate, ContractsDeployment.model_dump_map,
    YMap.ofList, optF, lookupKey]

@[simp] theorem vOpt_contracts_dump (o : Option ContractsDeployment) :
    vOpt ContractsDeployment.model_validate (dumpOpt ContractsDeployment.model_dump o) =
      some o := by
  cases o with
  | none => rfl
  | some c => simp [dumpOpt, ContractsDeployment.model_dump, vOpt]

@[simp] theorem config_validate_dump (d : DeploymentConfig) :
    DeploymentConfig.model_validate (Yaml.map d.model_dump_map) = some d := by
  obtain ⟨cfg, cs⟩ := d
  simp [DeploymentConfig.model_validate, DeploymentConfig.model_dump_map, YMap.ofList,
    reqF, optF, lookupKey, ChainParameters.model_dump]

theorem config_validate_dump_yaml (d : DeploymentConfig) :
    DeploymentConfig.model_validate d.model_dump = some d := by
  simp [DeploymentConfig.model_dump]

/-! ### The manifest store (`YamlDeploymentFile`)

The store's state is the parsed content of the backing YAML file:
`none` when the file does not exist, `some y` when it holds document `y`.
Operations that can raise return an `Except PyErr` result paired with the
resulting file state; a raised exception leaves the file exactly as it was,
mirroring the source, where every failure point precedes the single
`open(..., "w")` write. -/

/-- `YamlDeploymentFile.get_deployment_config`: `none` when the file does
not exist (not an error), otherwise `DeploymentConfig.model_validate` of the
parsed YAML, raising `ValidationError` when the document does not match the
schema. -/
def get_deployment_config (st : Option Yaml) : Except PyErr (Option DeploymentConfig) :=
  match st with
  | none => .ok none
  | some y =>
    match DeploymentConfig.model_validate y with
    | some d => .ok (some d)
    | none => .error .validationError

/-- `YamlDeploymentFile.save_deployment_config`: overwrite the file with
`yaml.safe_dump(deployment.model_dump())`. -/
def save_deployment_config (_st : Option Yaml) (deployment : DeploymentConfig) : Option Yaml :=
  some deployment.model_dump

/-- `YamlDeploymentFile.update_deployment_config`: load the current
document (raising `ValidationError` if the file exists but is invalid),
deep-merge `data` into its `model_dump()` (or start from `data` itself when
the file does not exist), validate the merged mapping, and persist the raw
merged mapping.  Validation failure raises before the file is written. -/
def update_deployment_config (st : Option Yaml) (data : YMap) :
    Except PyErr Unit × Option Yaml :=
  match get_deployment_config st with
  | .error e => (.error e, st)
  | .ok deployment_config =>
    let updated_deployment_config : YMap :=
      match deployment_config with
      | some d => deep_update d.model_dump_map data
      | none => data
    match DeploymentConfig.model_validate (.map updated_deployment_config) with
    | some _ => (.ok (), some (.map updated_deployment_config))
    | none => (.error .validationError, st)

/-- `YamlDeploymentFile.ensure_nested_dict`: walk `keys` through the raw
mapping `d`, replacing a missing or `None` entry by an empty mapping at each
step, and return the updated top-level mapping together with the innermost
value reached.  Descending through an existing value that is neither a
mapping nor `None` raises `TypeError` at the next loop iteration (for string
keys, both `key not in d` and `d[key]` fail on scalars and lists); if such a
value is reached at the final key it is returned as is. -/
def ensure_nested_dict : YMap → List String → Except PyErr (YMap × Yaml)
  | d, [] => .ok (d, .map d)
  | d, k :: ks =>
    match lookupKey d k with
    | none =>
        match ensure_nested_dict .nil ks with
        | .ok (sub, inner) => .ok (setKey d k (.map sub), inner)
        | .error e => .error e
    | some .null =>
        match ensure_nested_dict .nil ks with
        | .ok (sub, inner) => .ok (setKey d k (.map sub), inner)
        | .error e => .error e
    | some (.map sub) =>
        match ensure_nested_dict sub ks with
        | .ok (sub2, inner) => .ok (setKey d k (.map sub2), inner)
        | .error e => .error e
    | some v =>
        match ks with
        | [] => .ok (d, v)
        | _ :: _ => .error .typeError

/-- Python `dict.update`: apply each binding of `record` to `d` in order. -/
def updateDict (d : YMap) : YMap → YMap
  | .nil => d
  | .cons k v rest => updateDict (setKey d k v) rest

/-- `ensure_nested_dict` followed by `inner.update(record)` through the same
keys: the in-place mutation of the innermost mapping reference, reflected
back into the top-level mapping.  When the innermost value reached is not a
mapping, `.update(...)` on it raises `AttributeError`. -/
def setAtPath : YMap → List String → YMap → Except PyErr YMap
  | d, [], record => .ok (updateDict d record)
  | d, k :: ks, record =>
    match lookupKey d k with
    | none =>
        match setAtPath .nil ks record with
        | .ok sub => .ok (setKey d k (.map sub))
        | .error e => .error e
    | some .null =>
        match setAtPath .nil ks record with
        | .ok sub => .ok (setKey d k (.map sub))
        | .error e => .error e
    | some (.map sub) =>
        match setAtPath sub ks record with
        | .ok sub2 => .ok (setKey d k (.map sub2))
        | .error e => .error e
    | some _ =>
        match ks with
        | [] => .error .attributeError
        | _ :: _ => .error .typeError

/-! ### The deployment recorder (`update_contract_deployment`) -/

/-- A character matched by the regex class used in both version patterns:
a digit or a dot. -/
def isVerChar (c : Char) : Bool := c.isDigit || c = '.'

/-- If `lit` is a prefix of `s`, return the remainder of `s`. -/
def dropLit : List Char → List Char → Option (List Char)
  | [], s => some s
  | _ :: _, [] => none
  | l :: ls, c :: cs => if c = l then dropLit ls cs else none

/-- The literal part of the compiler pragma pattern
`r"# pragma version ([\d.]+)"`. -/
def pragmaLit : List Char := "# pragma version ".data

/-- Leftmost match of `re.search(r"# pragma version ([\d.]+)", ...)`:
scan for the literal, then capture a non-empty run of digits and dots. -/
def searchPragmaAux : List Char → Option String
  | [] => none
  | c :: cs =>
    match dropLit pragmaLit (c :: cs) with
    | some rest =>
        match rest.takeWhile isVerChar with
        | [] => searchPragmaAux cs
        | g => some (String.mk g)
    | none => searchPragmaAux cs

/-- `re.search(r"# pragma version ([\d.]+)", source)`. -/
def searchPragma (source : String) : Option String := searchPragmaAux source.data

/-- The literal part of the blueprint version pattern
`version: public(constant(String[8])) = "([\d.]+)"`. -/
def blueprintLit : List Char := "version: public(constant(String[8])) = \"".data

/-- Leftmost match of the blueprint version pattern: the literal, then a
non-empty run of digits and dots that must be followed by a closing quote
(the greedy character class cannot backtrack onto the quote). -/
def searchBlueprintAux : List Char → Option String
  | [] => none
  | c :: cs =>
    match dropLit blueprintLit (c :: cs) with
    | some rest =>
        match rest.takeWhile isVerChar with
        | [] => searchBlueprintAux cs
        | g =>
          match rest.drop g.length with
          | '\"' :: _ => some (String.mk g)
          | _ => searchBlueprintAux cs
    | none => searchBlueprintAux cs

/-- `re.search('version: public\\(constant\\(String\\[8\\]\\)\\) = "([\\d.]+)"', source)`. -/
def searchBlueprintVersion (source : String) : Option String :=
  searchBlueprintAux source.data

/-- A character Python's `str.strip()` removes: the ASCII whitespace
characters. -/
def isPySpace (c : Char) : Bool :=
  c = ' ' || c = '\t' || c = '\n' || c = '\r' || c = '\x0b' || c = '\x0c'

/-- Python `str.strip()`: remove leading and trailing whitespace. -/
def pyStrip (s : String) : String :=
  String.mk (((s.data.dropWhile isPySpace).reverse.dropWhile isPySpace).reverse)

/-- The data `update_contract_deployment` reads from the deployed
`VyperContract` handle and its collaborators: `address` and the
`version()` call result come from the live contract, `source_code`,
`optimize_name` (`settings.optimize._name_`) and `evm_version` from
`contract_object.compiler_data`, `filename_commit` is
`get_latest_commit_hash(contract_object.filename)`,
`relative_path_parts` the parts of
`get_relative_path(contract_object.filename)`, and `ctor_encode_result`
the hex string the external ABI encoder produces for the constructor
arguments when some are supplied. -/
structure ContractObject where
  address : String
  source_code : String
  version_call : String
  filename_commit : String
  relative_path_parts : List String
  optimize_name : String
  evm_version : Option String
  ctor_encode_result : String
deriving DecidableEq

/-- `contract_folder.parts[contract_folder.parts.index("contracts"):]`:
drop the leading path segments up to the first `"contracts"`. -/
def dropUntilContracts : List String → List String
  | [] => []
  | p :: ps => if p = "contracts" then p :: ps else dropUntilContracts ps

/-- The manifest path keys for a contract folder; `list.index` raises
`ValueError` when `"contracts"` does not occur among the parts. -/
def contractPathKeys (parts : List String) : Except PyErr (List String) :=
  match dropUntilContracts parts with
  | [] => .error .valueError
  | l => .ok l

/-- The semantic-version extraction step (lines 281–290 of the source):
a normal deployment queries the deployed contract's `version()` accessor,
a blueprint deployment pattern-matches the version constant string in the
source text instead, raising `ValueError` when the pattern does not match. -/
def extractVersion (contract_object : ContractObject) (as_blueprint : Bool) :
    Except PyErr String :=
  if !as_blueprint then .ok (pyStrip contract_object.version_call)
  else
    match searchBlueprintVersion contract_object.source_code with
    | some v => .ok v
    | none => .error .valueError

/-- The metadata mapping stored into the innermost manifest entry by
`contract_deployment.update({...})`. -/
def contractRecord (contract_object : ContractObject) (has_ctor_args : Bool)
    (as_blueprint : Bool) (now : Int) (compiler_version version : String) : YMap :=
  .ofList
    [("deployment_type", .str (if !as_blueprint then "normal" else "blueprint")),
     ("contract_version", .str version),
     ("contract_path", .str (String.intercalate "/" contract_object.relative_path_parts)),
     ("contract_github_url", .str
       ("https://github.com/curvefi/curve-lite/blob/" ++ contract_object.filename_commit ++
        "/" ++ String.intercalate "/" (contract_object.relative_path_parts.drop 1))),
     ("address", .str (pyStrip contract_object.address)),
     ("deployment_timestamp", .int now),
     ("constructor_args_encoded",
       dumpOptStr (if has_ctor_args then some contract_object.ctor_encode_result else none)),
     ("compiler_settings", .map (.ofList
       [("compiler_version", .str compiler_version),
        ("optimisation_level", .str contract_object.optimize_name),
        ("evm_version", dumpOptStr contract_object.evm_version)]))]

/-- `YamlDeploymentFile.update_contract_deployment`: dump the loaded
document (`None.model_dump()` raises `AttributeError` when the file does
not exist), locate the path keys from the contract folder, ensure the
nested mappings exist, extract the compiler version from the source pragma
(`ValueError` when absent), extract the semantic version, store the
metadata mapping at the located path, validate the whole mapping and save
the validated document.  Every failure point precedes the file write. -/
def update_contract_deployment (st : Option Yaml) (contract_folder_parts : List String)
    (contract_object : ContractObject) (has_ctor_args : Bool) (as_blueprint : Bool)
    (now : Int) : Except PyErr Unit × Option Yaml :=
  match st with
  | none => (.error .attributeError, none)
  | some y =>
    match DeploymentConfig.model_validate y with
    | none => (.error .validationError, some y)
    | some d =>
      let deployment_config_dict := d.model_dump_map
      match contractPathKeys contract_folder_parts with
      | .error e => (.error e, some y)
      | .ok contract_path_keys =>
        match ensure_nested_dict deployment_config_dict contract_path_keys with
        | .error e => (.error e, some y)
        | .ok _ =>
          match searchPragma contract_object.source_code with
          | none => (.error .valueError, some y)
          | some compiler_version =>
            match extractVersion contract_object as_blueprint with
            | .error e => (.error e, some y)
            | .ok version =>
              match setAtPath deployment_config_dict contract_path_keys
                  (contractRecord contract_object has_ctor_args as_blueprint now
                    compiler_version version) with
              | .error e => (.error e, some y)
              | .ok dict2 =>
                match DeploymentConfig.model_validate (.map dict2) with
                | none => (.error .validationError, some y)
                | some d2 => (.ok (), save_deployment_config (some y) d2)

/-! ### The governance deployment flow (`deploy_xgov`) -/

/-- One `deploy_contract` call made by `deploy_xgov`, in order: the agent
blueprint (deployed before the rollup-kind branching) and the relayer
(deployed after it, with the branch-specific extra arguments). -/
inductive XgovCall where
  | agentBlueprint
  | relayer (r_args : List Yaml)

/-- The rollup-kind branching of `deploy_xgov` (the `match rollup_type`
statement): the extra relayer arguments per recognized kind, or
`NotImplementedError` for any other kind. -/
def rollup_r_args : RollupType → Except PyErr (List Yaml)
  | .op_stack => .ok [.str "0x4200000000000000000000000000000000000007"]
  | .polygon_cdk => .ok [.str "0x2a3DD3EB832aF982ec71669E178424b10Dca2EDe", .int 0]
  | .arb_orbit => .ok [.str "0x0000000000000000000000000000000000000064"]
  | .zksync => .error .notImplementedError

/-- `deploy_xgov`, abstracted to the sequence of `deploy_contract` calls it
makes and its outcome: the agent blueprint is deployed first, then the
rollup kind is branched on, and only then is the relayer deployed. -/
def deploy_xgov (rollup_type : RollupType) : List XgovCall × Except PyErr Unit :=
  match rollup_r_args rollup_type with
  | .error e => ([XgovCall.agentBlueprint], .error e)
  | .ok r_args => ([XgovCall.agentBlueprint, XgovCall.relayer r_args], .ok ())

/-! ### `get_contract_deployment`: duck-typed path walking

`get_contract_deployment` walks the loaded (validated) document with
`getattr` for record fields and keyed lookup for the one `dict`-typed field
(`GovernanceDeployment.relayer`).  `Node` is the type of runtime values the
walk can reach; `getattrN n k` is `getattr(n, k)`: `none` when the
attribute does not exist (`AttributeError`), `some none` when it is
Python `None`, `some (some v)` otherwise.  (`use_enum_values=True` makes
the enum-typed attributes plain strings at runtime.) -/

inductive Node where
  | vstr (s : String)
  | vint (n : Int)
  | vdao (d : DaoSettings)
  | vchain (c : ChainParameters)
  | vcomp (c : CompilerSettings)
  | vcontract (c : Contract)
  | vmeta (c : MetaregistyContract)
  | vhandlers (h : MetaregistryHandlers)
  | vsingle (s : SingleAmmDeployment)
  | vstable (s : StableswapSingleAmmDeployment)
  | vamm (a : AmmDeployment)
  | vgaugeF (g : GaugeFactoryDeployment)
  | vgauge (g : GaugeDeployment)
  | vgov (g : GovernanceDeployment)
  | vrelayer (m : List (String × Contract))
  | vhelpers (h : HelpersDeployment)
  | vregistries (r : RegistriesDeployment)
  | vcontracts (c : ContractsDeployment)
  | vconfig (d : DeploymentConfig)

/-- `getattr(node, key)`. -/
def getattrN : Node → String → Option (Option Node)
  | .vstr _, _ => none
  | .vint _, _ => none
  | .vdao d, k =>
      if k = "crv" then some (d.crv.map .vstr)
      else if k = "crvusd" then some (d.crvusd.map .vstr)
      else if k = "emergency_admin" then some (d.emergency_admin.map .vstr)
      else if k = "ownership_admin" then some (d.ownership_admin.map .vstr)
      else if k = "parameter_admin" then some (d.parameter_admin.map .vstr)
      else if k = "vault" then some (d.vault.map .vstr)
      else none
  | .vchain c, k =>
      if k = "network_name" then some (some (.vstr c.network_name))
      else if k = "chain_id" then some (some (.vint c.chain_id))
      else if k = "layer" then some (some (.vint c.layer))
      else if k = "rollup_type" then some (some (.vstr c.rollup_type.value))
      else if k = "dao" then some (c.dao.map .vdao)
      else if k = "explorer_base_url" then some (some (.vstr c.explorer_base_url))
      else if k = "native_currency_coingecko_id" then
        some (some (.vstr c.native_currency_coingecko_id))
      else if k = "native_currency_symbol" then some (some (.vstr c.native_currency_symbol))
      else if k = "platform_coingecko_id" then some (some (.vstr c.platform_coingecko_id))
      else if k = "public_rpc_url" then some (some (.vstr c.public_rpc_url))
      else if k = "wrapped_native_token" then some (some (.vstr c.wrapped_native_token))
      else none
  | .vcomp c, k =>
      if k = "compiler_version" then some (some (.vstr c.compiler_version))
      else if k = "evm_version" then some (c.evm_version.map .vstr)
      else if k = "optimisation_level" then some (some (.vstr c.optimisation_level))
      else none
  | .vcontract c, k =>
      if k = "address" then some (some (.vstr c.address))
      else if k = "compiler_settings" then some (some (.vcomp c.compiler_settings))
      else if k = "constructor_args_encoded" then some (c.constructor_args_encoded.map .vstr)
      else if k = "contract_github_url" then some (some (.vstr c.contract_github_url))
      else if k = "contract_path" then some (some (.vstr c.contract_path))
      else if k = "contract_version" then some (some (.vstr c.contract_version))
      else if k = "deployment_timestamp" then some (some (.vint c.deployment_timestamp))
      else if k = "deployment_type" then some (some (.vstr c.deployment_type.value))
      else none
  | .vmeta c, k =>
      if k = "address" then some (some (.vstr c.address))
      else if k = "compiler_settings" then some (some (.vcomp c.compiler_settings))
      else if k = "constructor_args_encoded" then some (c.constructor_args_encoded.map .vstr)
      else if k = "contract_github_url" then some (some (.vstr c.contract_github_url))
      else if k = "contract_path" then some (some (.vstr c.contract_path))
      else if k = "contract_version" then some (some (.vstr c.contract_version))
      else if k = "deployment_timestamp" then some (some (.vint c.deployment_timestamp))
      else if k = "deployment_type" then some (some (.vstr c.deployment_type.value))
      else if k = "registry_handlers" then some (c.registry_handlers.map .vhandlers)
      else none
  | .vhandlers h, k =>
      if k = "stableswap" then some (h.stableswap.map .vcontract)
      else if k = "tricryptoswap" then some (h.tricryptoswap.map .vcontract)
      else if k = "twocryptoswap" then some (h.twocryptoswap.map .vcontract)
      else none
  | .vsingle s, k =>
      if k = "factory" then some (s.factory.map .vcontract)
      else if k = "implementation" then some (s.implementation.map .vcontract)
      else if k = "math" then some (s.math.map .vcontract)
      else if k = "views" then some (s.views.map .vcontract)
      else none
  | .vstable s, k =>
      if k = "factory" then some (s.factory.map .vcontract)
      else if k = "implementation" then some (s.implementation.map .vcontract)
      else if k = "math" then some (s.math.map .vcontract)
      else if k = "views" then some (s.views.map .vcontract)
      else if k = "meta_implementation" then some (s.meta_implementation.map .vcontract)
      else none
  | .vamm a, k =>
      if k = "stableswap" then some (a.stableswap.map .vstable)
      else if k = "tricryptoswap" then some (a.tricryptoswap.map .vsingle)
      else if k = "twocryptoswap" then some (a.twocryptoswap.map .vsingle)
      else none
  | .vgaugeF g, k =>
      if k = "factory" then some (g.factory.map .vcontract)
      else if k = "implementation" then some (g.implementation.map .vcontract)
      else none
  | .vgauge g, k =>
      if k = "child_gauge" then some (some (.vgaugeF g.child_gauge))
      else none
  | .vgov g, k =>
      if k = "agent" then some (g.agent.map .vcontract)
      else if k = "relayer" then some (g.relayer.map .vrelayer)
      else if k = "vault" then some (g.vault.map .vcontract)
      else none
  | .vrelayer _, _ => none
  | .vhelpers h, k =>
      if k = "deposit_and_stake_zap" then some (h.deposit_and_stake_zap.map .vcontract)
      else if k = "rate_provider" then some (h.rate_provider.map .vcontract)
      else if k = "router" then some (h.router.map .vcontract)
      else if k = "stable_swap_meta_zap" then some (h.stable_swap_meta_zap.map .vcontract)
      else none
  | .vregistries r, k =>
      if k = "address_provider" then some (r.address_provider.map .vcontract)
      else if k = "metaregistry" then some (r.metaregistry.map .vmeta)
      else none
  | .vcontracts c, k =>
      if k = "amm" then some (c.amm.map .vamm)
      else if k = "gauge" then some (c.gauge.map .vgauge)
      else if k = "governance" then some (c.governance.map .vgov)
      else if k = "helpers" then some (c.helpers.map .vhelpers)
      else if k = "registries" then some (c.registries.map .vregistries)
      else none
  | .vconfig d, k =>
      if k = "config" then some (some (.vchain d.config))
      else if k = "contracts" then some (d.contracts.map .vcontracts)
      else none

/-- Lookup in the runtime `dict[str, Contract]` value. -/
def lookupContract : List (String × Contract) → String → Option Contract
  | [], _ => none
  | (k, c) :: rest, q => if k = q then some c else lookupContract rest q

/-- The per-key loop of `get_contract_deployment`: the `isinstance(..., dict)`
branch does a keyed lookup and returns `None` on a missing key; every other
node goes through `getattr`, returning `None` as soon as the attribute value
is `None`, and raising `AttributeError` when the attribute does not exist. -/
def walkNode : Node → List String → Except PyErr (Option Node)
  | n, [] => .ok (some n)
  | .vrelayer m, k :: ks =>
      match lookupContract m k with
      | some c => walkNode (.vcontract c) ks
      | none => .ok none
  | n, k :: ks =>
      match getattrN n k with
      | none => .error .attributeError
      | some none => .ok none
      | some (some n2) => walkNode n2 ks

/-- `YamlDeploymentFile.get_contract_deployment`: load the document
(`None` when the file does not exist, in which case the result is `None`),
then walk the config keys. -/
def get_contract_deployment (st : Option Yaml) (config_keys : List String) :
    Except PyErr (Option Node) :=
  match st with
  | none => .ok none
  | some y =>
    match DeploymentConfig.model_validate y with
    | none => .error .validationError
    | some d => walkNode (.vconfig d) config_keys

/-! ### The static schema of the walk

`SchemaTy` is the static type of a node reachable by the walk and
`fieldTy t k` the type of field `k` of a node of type `t` — the key paths
"over schema-typed fields" of the spec are exactly those accepted by
`schemaWalkOk`.  The dictionary type accepts every key (a missing key is
"absent", never an error). -/

inductive SchemaTy where
  | strT
  | intT
  | daoT
  | chainT
  | compT
  | contractT
  | metaT
  | handlersT
  | singleT
  | stableT
  | ammT
  | gaugeFT
  | gaugeT
  | govT
  | relayerDictT
  | helpersT
  | registriesT
  | contractsT
  | configT
deriving DecidableEq

/-- The static field table of the schema (one test per field, in the
field-declaration order of the corresponding model). -/
def fieldTy : SchemaTy → String → Option SchemaTy
  | .strT, _ => none
  | .intT, _ => none
  | .daoT, k =>
      if k = "crv" then some .strT
      else if k = "crvusd" then some .strT
      else if k = "emergency_admin" then some .strT
      else if k = "ownership_admin" then some .strT
      else if k = "parameter_admin" then some .strT
      else if k = "vault" then some .strT
      else none
  | .chainT, k =>
      if k = "network_name" then some .strT
      else if k = "chain_id" then some .intT
      else if k = "layer" then some .intT
      else if k = "rollup_type" then some .strT
      else if k = "dao" then some .daoT
      else if k = "explorer_base_url" then some .strT
      else if k = "native_currency_coingecko_id" then some .strT
      else if k = "native_currency_symbol" then some .strT
      else if k = "platform_coingecko_id" then some .strT
      else if k = "public_rpc_url" then some .strT
      else if k = "wrapped_native_token" then some .strT
      else none
  | .compT, k =>
      if k = "compiler_version" then some .strT
      else if k = "evm_version" then some .strT
      else if k = "optimisation_level" then some .strT
      else none
  | .contractT, k =>
      if k = "address" then some .strT
      else if k = "compiler_settings" then some .compT
      else if k = "constructor_args_encoded" then some .strT
      else if k = "contract_github_url" then some .strT
      else if k = "contract_path" then some .strT
      else if k = "contract_version" then some .strT
      else if k = "deployment_timestamp" then some .intT
      else if k = "deployment_type" then some .strT
      else none
  | .metaT, k =>
      if k = "address" then some .strT
      else if k = "compiler_settings" then some .compT
      else if k = "constructor_args_encoded" then some .strT
      else if k = "contract_github_url" then some .strT
      else if k = "contract_path" then some .strT
      else if k = "contract_version" then some .strT
      else if k = "deployment_timestamp" then some .intT
      else if k = "deployment_type" then some .strT
      else if k = "registry_handlers" then some .handlersT
      else none
  | .handlersT, k =>
      if k = "stableswap" then some .contractT
      else if k = "tricryptoswap" then some .contractT
      else if k = "twocryptoswap" then some .contractT
      else none
  | .singleT, k =>
      if k = "factory" then some .contractT
      else if k = "implementation" then some .contractT
      else if k = "math" then some .contractT
      else if k = "views" then some .contractT
      else none
  | .stableT, k =>
      if k = "factory" then some .contractT
      else if k = "implementation" then some .contractT
      else if k = "math" then some .contractT
      else if k = "views" then some .contractT
      else if k = "meta_implementation" then some .contractT
      else none
  | .ammT, k =>
      if k = "stableswap" then some .stableT
      else if k = "tricryptoswap" then some .singleT
      else if k = "twocryptoswap" then some .singleT
      else none
  | .gaugeFT, k =>
      if k = "factory" then some .contractT
      else if k = "implementation" then some .contractT
      else none
  | .gaugeT, k =>
      if k = "child_gauge" then some .gaugeFT
      else none
  | .govT, k =>
      if k = "agent" then some .contractT
      else if k = "relayer" then some .relayerDictT
      else if k = "vault" then some .contractT
      else none
  | .relayerDictT, _ => some .contractT
  | .helpersT, k =>
      if k = "deposit_and_stake_zap" then some .contractT
      else if k = "rate_provider" then some .contractT
      else if k = "router" then some .contractT
      else if k = "stable_swap_meta_zap" then some .contractT
      else none
  | .registriesT, k =>
      if k = "address_provider" then some .contractT
      else if k = "metaregistry" then some .metaT
      else none
  | .contractsT, k =>
      if k = "amm" then some .ammT
      else if k = "gauge" then some .gaugeT
      else if k = "governance" then some .govT
      else if k = "helpers" then some .helpersT
      else if k = "registries" then some .registriesT
      else none
  | .configT, k =>
      if k = "config" then some .chainT
      else if k = "contracts" then some .contractsT
      else none

/-- The static type of a runtime node. -/
def nodeTy : Node → SchemaTy
  | .vstr _ => .strT
  | .vint _ => .intT
  | .vdao _ => .daoT
  | .vchain _ => .chainT
  | .vcomp _ => .compT
  | .vcontract _ => .contractT
  | .vmeta _ => .metaT
  | .vhandlers _ => .handlersT
  | .vsingle _ => .singleT
  | .vstable _ => .stableT
  | .vamm _ => .ammT
  | .vgaugeF _ => .gaugeFT
  | .vgauge _ => .gaugeT
  | .vgov _ => .govT
  | .vrelayer _ => .relayerDictT
  | .vhelpers _ => .helpersT
  | .vregistries _ => .registriesT
  | .vcontracts _ => .contractsT
  | .vconfig _ => .configT

/-- A key path that stays within the static schema. -/
def schemaWalkOk : SchemaTy → List String → Bool
  | _, [] => true
  | t, k :: ks =>
    match fieldTy t k with
    | some t2 => schemaWalkOk t2 ks
    | none => false

/-- Typing helper: every node in an `Option.map`-ped attribute value has
the expected static type. -/
theorem mem_map_nodeTy {α : Type} (f : α → Node) (t : SchemaTy)
    (hf : ∀ a, nodeTy (f a) = t) (o : Option α) :
    ∀ n2 ∈ o.map f, nodeTy n2 = t := by
  intro n2 hm
  rw [Option.mem_def, Option.map_eq_some'] at hm
  obtain ⟨a, _, ha⟩ := hm
  subst ha
  exact hf a

/-- Typing helper for required (always-`some`) attribute values. -/
theorem mem_some_nodeTy (n0 : Node) (t : SchemaTy) (hf : nodeTy n0 = t) :
    ∀ n2 ∈ (some n0 : Option Node), nodeTy n2 = t := by
  intro n2 hm
  rw [Option.mem_def, Option.some.injEq] at hm
  subst hm
  exact hf

set_option maxHeartbeats 1000000 in
/-- `getattr` is total on schema fields: on a non-`dict` node whose static
type declares field `k`, `getattr` succeeds and the value (when not `None`)
has the declared static type. -/
theorem getattrN_ok (n : Node) (k : String) (t : SchemaTy)
    (hne : nodeTy n ≠ SchemaTy.relayerDictT) (h : fieldTy (nodeTy n) k = some t) :
    ∃ o : Option Node, getattrN n k = some o ∧ ∀ n2 ∈ o, nodeTy n2 = t := by
  cases n <;> simp only [nodeTy] at hne h <;>
    first
      | exact absurd rfl hne
      | (simp only [fieldTy] at h
         first
           | (split_ifs at h <;>
                first
                  | (injection h with h2
                     subst h2
                     subst_vars
                     first
                       | (refine ⟨_, rfl, mem_map_nodeTy _ _ ?_ _⟩
                          intro a
                          rfl)
                       | (refine ⟨_, rfl, mem_some_nodeTy _ _ ?_⟩
                          rfl)))
           | simp at h)

/-- On a non-`dict` node, one step of the walk goes through `getattr`. -/
theorem walkNode_cons_attr (n : Node) (hrel : nodeTy n ≠ SchemaTy.relayerDictT)
    (k : String) (ks : List String) :
    walkNode n (k :: ks) =
      match getattrN n k with
      | none => .error .attributeError
      | some none => .ok none
      | some (some n2) => walkNode n2 ks := by
  cases n <;> first | exact absurd rfl hrel | rfl

/-- A node of dictionary type is a runtime `dict`. -/
theorem nodeTy_eq_relayer (n : Node) (h : nodeTy n = SchemaTy.relayerDictT) :
    ∃ m, n = Node.vrelayer m := by
  cases n <;> simp [nodeTy] at h ⊢

/-- One non-`dict` step of the walk succeeds when the key is a schema field
and the rest of the path stays within the schema. -/
theorem walkNode_ok_attr (k : String) (ks : List String)
    (ih : ∀ n : Node, schemaWalkOk (nodeTy n) ks = true → ∃ r, walkNode n ks = Except.ok r)
    (n : Node) (hrel : nodeTy n ≠ SchemaTy.relayerDictT)
    (h : schemaWalkOk (nodeTy n) (k :: ks) = true) :
    ∃ r, walkNode n (k :: ks) = Except.ok r := by
  cases hft : fieldTy (nodeTy n) k with
  | none =>
      simp only [schemaWalkOk, hft] at h
      exact Bool.noConfusion h
  | some t2 =>
      simp only [schemaWalkOk, hft] at h
      obtain ⟨o, ho, hty⟩ := getattrN_ok n k t2 hrel hft
      have hw := walkNode_cons_attr n hrel k ks
      cases o with
      | none => exact ⟨none, by rw [hw, ho]⟩
      | some n2 =>
          obtain ⟨r, hr⟩ := ih n2 (by rw [hty n2 (by simp)]; exact h)
          exact ⟨r, by rw [hw, ho]; exact hr⟩

/-- The walk never raises along a key path that stays within the static
schema: a missing or `None` step yields an absent result instead. -/
theorem walkNode_ok (keys : List String) :
    ∀ n : Node, schemaWalkOk (nodeTy n) keys = true →
      ∃ r, walkNode n keys = Except.ok r := by
  induction keys with
  | nil => exact fun n _ => ⟨some n, by cases n <;> rfl⟩
  | cons k ks ih =>
      intro n h
      by_cases hrel : nodeTy n = SchemaTy.relayerDictT
      · obtain ⟨m, rfl⟩ := nodeTy_eq_relayer n hrel
        simp only [schemaWalkOk, nodeTy, fieldTy] at h
        cases hlc : lookupContract m k with
        | none => exact ⟨none, by simp [walkNode, hlc]⟩
        | some c =>
            obtain ⟨r, hr⟩ := ih (Node.vcontract c) h
            exact ⟨r, by simp [walkNode, hlc, hr]⟩
      · exact walkNode_ok_attr k ks ih n hrel h

/-! ### Properties of the mapping primitives and of `deep_update` -/

theorem lookupKey_setKey_self (m : YMap) (k : String) (v : Yaml) :
    lookupKey (setKey m k v) k = some v := by
  induction m using YMap.ind with
  | nil => simp [setKey, lookupKey]
  | cons k2 w rest ih =>
      by_cases h : k2 = k <;> simp [setKey, lookupKey, h, ih]

theorem lookupKey_setKey_ne (m : YMap) (k q : String) (v : Yaml) (h : k ≠ q) :
    lookupKey (setKey m k v) q = lookupKey m q := by
  induction m using YMap.ind with
  | nil => simp [setKey, lookupKey, h]
  | cons k2 w rest ih =>
      by_cases h2 : k2 = k
      · subst h2
        simp [setKey, lookupKey, h]
      · simp only [setKey, if_neg h2]
        by_cases h3 : k2 = q <;> simp [lookupKey, h3, ih]

theorem lookupKey_eq_none_of_not_mem (m : YMap) (q : String) (h : q ∉ m.keys) :
    lookupKey m q = none := by
  induction m using YMap.ind with
  | nil => rfl
  | cons k v rest ih =>
      simp only [YMap.keys, List.mem_cons, not_or] at h
      obtain ⟨h1, h2⟩ := h
      have hk : ¬k = q := fun hh => h1 hh.symm
      simp [lookupKey, hk, ih h2]

theorem setKey_idem (m : YMap) (k : String) (v : Yaml) :
    setKey (setKey m k v) k v = setKey m k v := by
  induction m using YMap.ind with
  | nil => simp [setKey]
  | cons k2 w rest ih =>
      by_cases h : k2 = k <;> simp [setKey, h, ih]

/-- The per-key characterization of `deep_update` (for update mappings
without duplicate keys, as Python `dict`s are): a key absent from the
update keeps its old value; a key present in the update gets the update's
value, except that a mapping updating an existing mapping merges
recursively (`deepUpdateVal`). -/
theorem deep_update_lookup (u : YMap) :
    ∀ (m : YMap) (q : String), u.keys.Nodup →
      lookupKey (deep_update m u) q =
        match lookupKey u q with
        | none => lookupKey m q
        | some v => some (deepUpdateVal (lookupKey m q) v) := by
  induction u using YMap.ind with
  | nil => intro m q _; rfl
  | cons k v rest ih =>
      intro m q hnd
      simp only [YMap.keys, List.nodup_cons] at hnd
      obtain ⟨hk, hnd⟩ := hnd
      show lookupKey (deep_update (setKey m k (deepUpdateVal (lookupKey m k) v)) rest) q = _
      by_cases hq : k = q
      · subst hq
        rw [ih _ k hnd, lookupKey_eq_none_of_not_mem rest k hk]
        simp [lookupKey, lookupKey_setKey_self]
      · rw [ih _ q hnd, lookupKey_setKey_ne m k q _ hq]
        simp [lookupKey, hq]

/-- `ensure_nested_dict` is idempotent: re-running it on the mapping a
successful run produced leaves that mapping unchanged and returns the same
innermost value. -/
theorem ensure_nested_dict_idem (ks : List String) :
    ∀ (d d1 : YMap) (inner : Yaml),
      ensure_nested_dict d ks = .ok (d1, inner) →
      ensure_nested_dict d1 ks = .ok (d1, inner) := by
  induction ks with
  | nil =>
      intro d d1 inner h
      simp only [ensure_nested_dict, Except.ok.injEq, Prod.mk.injEq] at h
      obtain ⟨h1, h2⟩ := h
      subst h1; subst h2
      rfl
  | cons k ks ih =>
      intro d d1 inner h
      cases hlk : lookupKey d k with
      | none =>
          cases hrec : ensure_nested_dict .nil ks with
          | error e =>
              simp only [ensure_nested_dict, hlk, hrec] at h
              exact Except.noConfusion h
          | ok pr =>
              obtain ⟨sub, inner0⟩ := pr
              simp only [ensure_nested_dict, hlk, hrec, Except.ok.injEq,
                Prod.mk.injEq] at h
              obtain ⟨h1, h2⟩ := h
              subst h1; subst h2
              have hsub := ih _ _ _ hrec
              simp only [ensure_nested_dict, lookupKey_setKey_self, hsub, setKey_idem]
      | some v =>
          cases v with
          | null =>
              cases hrec : ensure_nested_dict .nil ks with
              | error e =>
              simp only [ensure_nested_dict, hlk, hrec] at h
              exact Except.noConfusion h
              | ok pr =>
                  obtain ⟨sub, inner0⟩ := pr
                  simp only [ensure_nested_dict, hlk, hrec, Except.ok.injEq,
                    Prod.mk.injEq] at h
                  obtain ⟨h1, h2⟩ := h
                  subst h1; subst h2
                  have hsub := ih _ _ _ hrec
                  simp only [ensure_nested_dict, lookupKey_setKey_self, hsub, setKey_idem]
          | map sub =>
              cases hrec : ensure_nested_dict sub ks with
              | error e =>
              simp only [ensure_nested_dict, hlk, hrec] at h
              exact Except.noConfusion h
              | ok pr =>
                  obtain ⟨sub2, inner0⟩ := pr
                  simp only [ensure_nested_dict, hlk, hrec, Except.ok.injEq,
                    Prod.mk.injEq] at h
                  obtain ⟨h1, h2⟩ := h
                  subst h1; subst h2
                  have hsub := ih _ _ _ hrec
                  simp only [ensure_nested_dict, lookupKey_setKey_self, hsub, setKey_idem]
          | str s =>
              cases ks with
              | nil =>
                  simp only [ensure_nested_dict, hlk, Except.ok.injEq, Prod.mk.injEq] at h
                  obtain ⟨h1, h2⟩ := h
                  subst h1; subst h2
                  simp [ensure_nested_dict, hlk]
              | cons k2 ks2 =>
                  simp only [ensure_nested_dict, hlk] at h
                  exact Except.noConfusion h
          | int n =>
              cases ks with
              | nil =>
                  simp only [ensure_nested_dict, hlk, Except.ok.injEq, Prod.mk.injEq] at h
                  obtain ⟨h1, h2⟩ := h
                  subst h1; subst h2
                  simp [ensure_nested_dict, hlk]
              | cons k2 ks2 =>
                  simp only [ensure_nested_dict, hlk] at h
                  exact Except.noConfusion h
          | list l =>
              cases ks with
              | nil =>
                  simp only [ensure_nested_dict, hlk, Except.ok.injEq, Prod.mk.injEq] at h
                  obtain ⟨h1, h2⟩ := h
                  subst h1; subst h2
                  simp [ensure_nested_dict, hlk]
              | cons k2 ks2 =>
                  simp only [ensure_nested_dict, hlk] at h
                  exact Except.noConfusion h

/-! ### Concrete sample data for the witnesses -/

def sampleChain : ChainParameters :=
  ⟨"testnet", 7, 2, RollupType.op_stack, none, "https://scan.example", "ethereum",
   "ETH", "curve", "https://rpc.example", "0x4200000000000000000000000000000000000006"⟩

def sampleChain42 : ChainParameters :=
  ⟨"testnet", 42, 2, RollupType.op_stack, none, "https://scan.example", "ethereum",
   "ETH", "curve", "https://rpc.example", "0x4200000000000000000000000000000000000006"⟩

def sampleDoc : DeploymentConfig := ⟨sampleChain, none⟩

def sampleDoc42 : DeploymentConfig := ⟨sampleChain42, none⟩

def sampleChainOpt : ChainParameters :=
  ⟨"optimism", 10, 2, RollupType.op_stack, none, "https://optimistic.etherscan.io",
   "ethereum", "ETH", "optimism", "https://mainnet.optimism.io",
   "0x4200000000000000000000000000000000000006"⟩

def sampleDocOpt : DeploymentConfig := ⟨sampleChainOpt, none⟩

/-- A partial update that changes only `config.chain_id`. -/
def c1update : YMap := .ofList [("config", .map (.ofList [("chain_id", .int 42)]))]

/-- A partial update giving `config.chain_id` a wrongly-typed value. -/
def c2badUpdate : YMap := .ofList [("config", .map (.ofList [("chain_id", .str "ten")]))]

/-- The partial update of the spec's absent-manifest scenario. -/
def c5update : YMap := .ofList [("config", .map (.ofList [("chain_id", .int 10)]))]

/-- A blueprint contract handle whose source carries both the compiler
pragma and the version constant. -/
def bpObj : ContractObject :=
  ⟨"0xabc ",
   "# pragma version 0.3.10\nversion: public(constant(String[8])) = \"1.0.0\"\n",
   "9.9.9", "deadbeef", ["curve-core", "contracts", "amm", "stableswap", "factory.vy"],
   "gas", some "shanghai", "00"⟩

/-- A contract handle whose source has no version pragma comment. -/
def noPragmaObj : ContractObject :=
  ⟨"0xdef", "def version() -> String[8]: return VERSION", "7.0.0", "cafe",
   ["curve-core", "contracts", "helpers", "router", "router.vy"], "codesize", none, "00"⟩

/-! ### The claims -/

/-- C1: for every existing on-disk document and every partial update over
the schema whose merge validates, `update_deployment_config` persists the
deep merge of the dumped document with the partial; per key, a key absent
from the partial keeps the document's value, a key present in the partial
gets the partial's value, with nested mappings merged recursively and
scalars and lists replaced wholesale (`deepUpdateVal`). -/
theorem update_deployment_config_deep_merge :
    (∀ (y : Yaml) (d : DeploymentConfig) (data : YMap) (d2 : DeploymentConfig),
        DeploymentConfig.model_validate y = some d →
        DeploymentConfig.model_validate (.map (deep_update d.model_dump_map data)) = some d2 →
        update_deployment_config (some y) data =
          (.ok (), some (.map (deep_update d.model_dump_map data)))) ∧
    (∀ (m u : YMap) (q : String), u.keys.Nodup →
        (lookupKey u q = none → lookupKey (deep_update m u) q = lookupKey m q) ∧
        (∀ v, lookupKey u q = some v →
            lookupKey (deep_update m u) q = some (deepUpdateVal (lookupKey m q) v))) := by
  constructor
  · intro y d data d2 h1 h2
    simp only [update_deployment_config, get_deployment_config, h1, h2]
  · intro m u q hnd
    constructor
    · intro habs
      rw [deep_update_lookup u m q hnd, habs]
    · intro v hpres
      rw [deep_update_lookup u m q hnd, hpres]

/-- Witness for C1: merging a `chain_id`-only partial into a concrete
document updates `config` and keeps `contracts` untouched. -/
theorem update_deployment_config_deep_merge_witness :
    update_deployment_config (some sampleDoc.model_dump) c1update =
      (.ok (), some (.map (deep_update sampleDoc.model_dump_map c1update))) ∧
    lookupKey (deep_update sampleDoc.model_dump_map c1update) "contracts" =
      lookupKey sampleDoc.model_dump_map "contracts" :=
  ⟨update_deployment_config_deep_merge.1 sampleDoc.model_dump sampleDoc c1update
      sampleDoc42 rfl rfl,
   (update_deployment_config_deep_merge.2 sampleDoc.model_dump_map c1update "contracts"
      (by decide)).1 rfl⟩

/-- C2: a partial update that makes the merged document fail schema
validation raises `ValidationError` and leaves the on-disk manifest
unchanged (validation precedes the only write). -/
theorem update_deployment_config_invalid_partial (y : Yaml) (d : DeploymentConfig)
    (data : YMap)
    (h1 : DeploymentConfig.model_validate y = some d)
    (h2 : DeploymentConfig.model_validate (.map (deep_update d.model_dump_map data)) = none) :
    update_deployment_config (some y) data = (.error .validationError, some y) := by
  simp only [update_deployment_config, get_deployment_config, h1, h2]

/-- Witness for C2: a wrongly-typed `chain_id` aborts the merge and leaves
the file as it was. -/
theorem update_deployment_config_invalid_partial_witness :
    update_deployment_config (some sampleDoc.model_dump) c2badUpdate =
      (.error .validationError, some sampleDoc.model_dump) :=
  update_deployment_config_invalid_partial sampleDoc.model_dump sampleDoc c2badUpdate rfl rfl

/-- C3: on a loadable manifest (absent file or schema-valid document),
`get_contract_deployment` never raises along a key path over schema-typed
fields; an absent file yields an absent result, and a `None`-valued step
yields an absent result immediately. -/
theorem get_contract_deployment_total :
    (∀ (st : Option Yaml) (config_keys : List String),
        (st = none ∨ ∃ y d, st = some y ∧ DeploymentConfig.model_validate y = some d) →
        schemaWalkOk SchemaTy.configT config_keys = true →
        ∃ r, get_contract_deployment st config_keys = .ok r) ∧
    (∀ config_keys, get_contract_deployment none config_keys = .ok none) ∧
    (∀ (n : Node) (k : String) (ks : List String), getattrN n k = some none →
        walkNode n (k :: ks) = .ok none) := by
  refine ⟨?_, fun _ => rfl, ?_⟩
  · intro st keys hst hk
    rcases hst with rfl | ⟨y, d, rfl, hv⟩
    · exact ⟨none, rfl⟩
    · obtain ⟨r, hr⟩ := walkNode_ok keys (.vconfig d) hk
      exact ⟨r, by simp only [get_contract_deployment, hv, hr]⟩
  · intro n k ks h
    rw [walkNode_cons_attr n ?hrel k ks, h]
    case hrel =>
      cases n <;> first
        | exact fun hh => SchemaTy.noConfusion hh
        | exact absurd h (by simp [getattrN])

/-- Witness for C3: walking a deep not-yet-deployed path on a concrete
valid document succeeds (with an absent result rather than an error). -/
theorem get_contract_deployment_total_witness :
    ∃ r, get_contract_deployment (some sampleDoc.model_dump)
      ["contracts", "amm", "stableswap", "factory"] = .ok r :=
  get_contract_deployment_total.1 (some sampleDoc.model_dump)
    ["contracts", "amm", "stableswap", "factory"]
    (Or.inr ⟨sampleDoc.model_dump, sampleDoc, rfl, rfl⟩) rfl

/-- Counterexample for C4: for the unrecognized rollup kind, `deploy_xgov`
does raise the not-supported error, but only after the agent blueprint
deployment call — the call trace before the error is not empty, so the
error is not raised "before any contract deployment call". -/
theorem deploy_xgov_deploys_agent_before_branching :
    (deploy_xgov RollupType.zksync).2 = .error .notImplementedError ∧
    (deploy_xgov RollupType.zksync).1 ≠ [] := by
  refine ⟨rfl, ?_⟩
  simp [deploy_xgov, rollup_r_args]

/-- C4 (amended): for every chain configuration whose rollup kind is not
one of the recognized kinds, `deploy_xgov` raises the not-supported error
before the relayer deployment call is attempted, but after the agent
blueprint has already been deployed. -/
theorem deploy_xgov_unrecognized_kind (rt : RollupType)
    (h : rt ∉ [RollupType.op_stack, RollupType.polygon_cdk, RollupType.arb_orbit]) :
    deploy_xgov rt = ([XgovCall.agentBlueprint], .error .notImplementedError) := by
  cases rt <;> simp_all [deploy_xgov, rollup_r_args]

/-- Witness for C4. -/
theorem deploy_xgov_unrecognized_kind_witness :
    deploy_xgov RollupType.zksync =
      ([XgovCall.agentBlueprint], .error .notImplementedError) :=
  deploy_xgov_unrecognized_kind RollupType.zksync (by decide)

/-- Counterexample for C5: with the manifest file absent, `load` does
return absent and `merge` does start from the partial itself, but the
partial `config: chain_id: 10` fails schema validation (`ChainParameters`
has further required fields), so the merge raises `ValidationError` and no
document is created — it does not "successfully create" the new document. -/
theorem merge_absent_manifest_partial_fails :
    get_deployment_config none = .ok none ∧
    update_deployment_config none c5update = (.error .validationError, none) :=
  ⟨rfl, rfl⟩

/-- C5 (amended): when the manifest file is absent, `load` returns absent
(not an error) and `merge` starts from the partial itself; the merge of the
partial `config: chain_id: 10` then fails schema validation and creates no
file, while a schema-complete partial creates a new on-disk document equal
to the partial alone. -/
theorem merge_absent_manifest :
    get_deployment_config none = .ok none ∧
    update_deployment_config none c5update = (.error .validationError, none) ∧
    (∀ (data : YMap) (d : DeploymentConfig),
        DeploymentConfig.model_validate (.map data) = some d →
        update_deployment_config none data = (.ok (), some (.map data))) := by
  refine ⟨rfl, rfl, ?_⟩
  intro data d h
  simp only [update_deployment_config, get_deployment_config, h]

/-- Witness for C5: a schema-complete partial creates the document. -/
theorem merge_absent_manifest_witness :
    update_deployment_config none sampleDocOpt.model_dump_map =
      (.ok (), some (.map sampleDocOpt.model_dump_map)) :=
  merge_absent_manifest.2.2 sampleDocOpt.model_dump_map sampleDocOpt rfl

/-- C6: recording a normal (non-blueprint) contract whose source text has
no version pragma comment raises (`ValueError`, the source's
`ConfigurationError`-kind failure) before any write, leaving the manifest
file unmodified. -/
theorem record_missing_pragma_aborts (y : Yaml) (d : DeploymentConfig)
    (parts keys : List String) (obj : ContractObject) (has_ctor_args : Bool)
    (now : Int) (r : YMap × Yaml)
    (h1 : DeploymentConfig.model_validate y = some d)
    (h2 : contractPathKeys parts = .ok keys)
    (h3 : ensure_nested_dict d.model_dump_map keys = .ok r)
    (h4 : searchPragma obj.source_code = none) :
    update_contract_deployment (some y) parts obj has_ctor_args false now =
      (.error .valueError, some y) := by
  simp only [update_contract_deployment, h1, h2, h3, h4]

/-- Witness for C6: recording a pragma-less contract over a concrete valid
manifest fails and the file value is unchanged. -/
theorem record_missing_pragma_aborts_witness :
    update_contract_deployment (some sampleDoc.model_dump)
      ["contracts", "helpers", "router"] noPragmaObj false false 0 =
      (.error .valueError, some sampleDoc.model_dump) :=
  record_missing_pragma_aborts sampleDoc.model_dump sampleDoc
    ["contracts", "helpers", "router"] ["contracts", "helpers", "router"]
    noPragmaObj false 0 _ rfl rfl rfl rfl

/-- C7: for a blueprint recording, the semantic version comes from the
source-embedded version constant and never from the contract's `version()`
accessor (the result does not depend on it at all); a normal recording
takes `version().strip()`; a blueprint source with no version-constant
match fails with the `ConfigurationError`-kind `ValueError`. -/
theorem record_blueprint_version_from_source :
    (∀ (st : Option Yaml) (parts : List String) (obj : ContractObject)
        (has_ctor_args : Bool) (now : Int) (vc : String),
        update_contract_deployment st parts
            ⟨obj.address, obj.source_code, vc, obj.filename_commit,
             obj.relative_path_parts, obj.optimize_name, obj.evm_version,
             obj.ctor_encode_result⟩ has_ctor_args true now =
          update_contract_deployment st parts obj has_ctor_args true now) ∧
    (∀ obj : ContractObject, extractVersion obj false = .ok (pyStrip obj.version_call)) ∧
    (∀ (obj : ContractObject) (v : String),
        searchBlueprintVersion obj.source_code = some v →
        extractVersion obj true = .ok v) ∧
    (∀ obj : ContractObject, searchBlueprintVersion obj.source_code = none →
        extractVersion obj true = .error .valueError) := by
  refine ⟨?_, fun obj => rfl, ?_, ?_⟩
  · intro st parts obj has_ctor_args now vc
    obtain ⟨a, src, v0, fc, rp, opt, ev, ce⟩ := obj
    rfl
  · intro obj v h
    simp [extractVersion, h]
  · intro obj h
    simp [extractVersion, h]

/-- Witness for C7: on a concrete blueprint source the version constant
`1.0.0` is extracted, while a normal recording of the same handle would
report the `version()` result. -/
theorem record_blueprint_version_from_source_witness :
    extractVersion bpObj true = .ok "1.0.0" ∧
    extractVersion bpObj false = .ok "9.9.9" := by
  constructor
  · exact record_blueprint_version_from_source.2.2.1 bpObj "1.0.0" rfl
  · exact (record_blueprint_version_from_source.2.1 bpObj).trans rfl

/-- C8: round-trip fidelity: saving any valid document and loading it back
returns an equal document, whatever the file held before. -/
theorem load_save_roundtrip (st : Option Yaml) (d : DeploymentConfig) :
    get_deployment_config (save_deployment_config st d) = .ok (some d) := by
  simp only [get_deployment_config, save_deployment_config, config_validate_dump_yaml]

/-- C9: `ensure_nested_dict` is idempotent: a second run with the same
path on the mapping produced by a successful first run returns the same
innermost value and leaves the mapping unchanged (no duplicate or
additional nesting). -/
theorem ensure_nested_dict_idempotent (d d1 : YMap) (ks : List String) (inner : Yaml)
    (h : ensure_nested_dict d ks = .ok (d1, inner)) :
    ensure_nested_dict d1 ks = .ok (d1, inner) :=
  ensure_nested_dict_idem ks d d1 inner h

/-- Witness for C9: creating `contracts.amm` in an empty mapping and
re-running on the result changes nothing and returns the same inner
mapping. -/
theorem ensure_nested_dict_idempotent_witness :
    ensure_nested_dict
        (.cons "contracts" (.map (.cons "amm" (.map .nil) .nil)) .nil)
        ["contracts", "amm"] =
      .ok (.cons "contracts" (.map (.cons "amm" (.map .nil) .nil)) .nil, .map .nil) :=
  ensure_nested_dict_idempotent .nil
    (.cons "contracts" (.map (.cons "amm" (.map .nil) .nil)) .nil)
    ["contracts", "amm"] (.map .nil) rfl

/-- C10 (implicit): `update_contract_deployment` requires an existing
manifest: with the file absent it raises (`AttributeError`, from
dereferencing the absent sentinel with `.model_dump()`) and never creates
a manifest, while `update_deployment_config` on an absent file starts a
new document from the partial itself. -/
theorem record_requires_existing_manifest :
    (∀ (parts : List String) (obj : ContractObject) (has_ctor_args as_blueprint : Bool)
        (now : Int),
        update_contract_deployment none parts obj has_ctor_args as_blueprint now =
          (.error .attributeError, none)) ∧
    (∀ (data : YMap) (d : DeploymentConfig),
        DeploymentConfig.model_validate (.map data) = some d →
        update_deployment_config none data = (.ok (), some (.map data))) := by
  refine ⟨fun _ _ _ _ _ => rfl, ?_⟩
  intro data d h
  simp only [update_deployment_config, get_deployment_config, h]

/-- Witness for C10: a concrete absent-file recording fails without
creating a file, while a concrete schema-complete merge creates one. -/
theorem record_requires_existing_manifest_witness :
    update_contract_deployment none ["contracts", "helpers", "router"] noPragmaObj
        false false 0 = (.error .attributeError, none) ∧
    update_deployment_config none sampleDoc.model_dump_map =
      (.ok (), some (.map sampleDoc.model_dump_map)) :=
  ⟨record_requires_existing_manifest.1 ["contracts", "helpers", "router"] noPragmaObj
      false false 0,
   record_requires_existing_manifest.2 sampleDoc.model_dump_map sampleDoc rfl⟩
